import Mathlib

/-!
Shallow embedding of the FAQ-tool routing graph (src/nodes.py, src/main.py,
src/app.py) and proofs about its routing, confidence scoring and
human-in-the-loop gating behaviour.

External collaborators (the completion oracle, the pandas dataframe agent,
the SAFE/MODIFY classifier chain and the two FAISS vector stores) are
modelled as an abstract `Agent` record of functions; Python exceptions are
modelled with `Except String`.
-/

namespace FAQTool

/-- A retrieved document chunk; only its text matters to the graph. -/
structure Document where
  page_content : String
deriving Repr, DecidableEq

/-- Values stored in the `metadata` dict of the graph state: the code only
ever stores a float (confidence) or a string (next_node). -/
inductive MVal where
  | num (q : ℚ)
  | str (s : String)
deriving Repr, DecidableEq

/-- The `metadata : Dict[str, Any]` field, as an association list. -/
abbrev Metadata := List (String × MVal)

/-- The pydantic `GraphState` threaded through the langgraph nodes
(src/nodes.py lines 9-18). `model_copy(update=...)` bypasses validation, so
the boolean flags are modelled as the booleans actually stored. -/
structure GraphState where
  query : String
  retrieved : Option (List Document) := none
  intermediate_response : Option String := none
  metadata : Option Metadata := none
  output : Option String := none
  context : Option String := none
  hitl_ui_needed : Option Bool := none
  code_review_needed : Option Bool := none
  selected_tool : Option String := none
deriving Repr, DecidableEq

/-- Outcome of the planner oracle call `agent.agent.plan(...)`: either an
`AgentFinish` or an `AgentAction` carrying a tool name. -/
inductive Plan where
  | finish
  | action (tool : String)
deriving Repr, DecidableEq

/-- An `AgentAction` inside the pandas agent intermediate steps; only its
`tool_input` (the generated code) is read by the graph. -/
structure PandasAction where
  tool_input : String
deriving Repr, DecidableEq

/-- Result dict of `pandas_agent.invoke`: an `output` string and the
`intermediate_steps` list of (action, observation) pairs. -/
structure PandasResult where
  output : String
  intermediate_steps : List (PandasAction × String) := []
deriving Repr, DecidableEq

/-- The external collaborators of `UniversityQueryAgent` (src/main.py):
planning and answering oracle calls, the pandas dataframe agent, the
SAFE/MODIFY classifier chain, and the two FAISS stores with
`similarity_search_with_score(query, k)` returning (document, distance)
pairs. `Except.error` models a raised Python exception. -/
structure Agent where
  plan : String → Except String Plan
  invoke : String → Except String String
  pandasInvoke : String → Except String PandasResult
  classify : String → String
  searchRegulations : String → Nat → List (Document × ℚ)
  searchCalendar : String → Nat → List (Document × ℚ)

/-- Whether the first character list is an initial segment of the second. -/
def startsWithChars : List Char → List Char → Bool
  | [], _ => true
  | _ :: _, [] => false
  | c :: cs, d :: ds => c = d && startsWithChars cs ds

/-- Whether the needle occurs as a contiguous run in the haystack. -/
def containsChars (needle : List Char) : List Char → Bool
  | [] => needle.isEmpty
  | d :: ds => startsWithChars needle (d :: ds) || containsChars needle ds

/-- Python `"SAFE" in s` substring test. -/
def containsSAFE (s : String) : Bool :=
  containsChars "SAFE".data s.data

/-- The fixed refusal message of `safe_query_execution` (src/main.py). -/
def modificationBlockedMsg : String :=
  "Modification blocked: This query is not allowed. Only read-only queries are permitted."

/-- `UniversityQueryAgent.safe_query_execution` (src/main.py lines 105-118):
classify the query, run the pandas agent only when the classification
contains SAFE, otherwise return the fixed refusal message. -/
def safe_query_execution (a : Agent) (query : String) : Except String String :=
  let classification_result := a.classify query
  if containsSAFE classification_result then
    (a.pandasInvoke query).map PandasResult.output
  else
    .ok modificationBlockedMsg

/-- `UniversityGraph.decide_route` (src/nodes.py lines 26-47): run the
planning call (an exception propagates, there is no handler), map
`AgentFinish` and the four recognized tool names to routes, and any other
tool name to the default node. -/
def decide_route (a : Agent) (query : String) : Except String (String × String) :=
  match a.plan query with
  | .error e => .error e
  | .ok .finish => .ok ("None", "default_node")
  | .ok (.action tool_name) =>
    if tool_name = "Calendar events retriever" then .ok (tool_name, "calendar_node")
    else if tool_name = "Current Date and Time tool" then .ok (tool_name, "date_time_node")
    else if tool_name = "Pandas student Data Frame Tool" then .ok (tool_name, "pandas_node")
    else if tool_name = "University regulations retriever" then .ok (tool_name, "retrieve")
    else .ok (tool_name, "default_node")

/-- `UniversityGraph.default_node` (src/nodes.py lines 49-57): answer the
query directly without tools; an oracle exception propagates (no handler). -/
def default_node (a : Agent) (state : GraphState) : Except String GraphState :=
  let guided_query := "Without using any tools respond to this query " ++ state.query
  match a.invoke guided_query with
  | .error e => .error e
  | .ok output => .ok { state with output := some output }

/-- `UniversityGraph.decision_routing_node` (src/nodes.py lines 59-64):
store the chosen route under the `next_node` metadata key and record the
selected tool. -/
def decision_routing_node (a : Agent) (state : GraphState) : Except String GraphState :=
  match decide_route a state.query with
  | .error e => .error e
  | .ok (tool, route) =>
    .ok { state with
      metadata := some [("next_node", MVal.str route)],
      selected_tool := some tool }

/-- The fixed reference distance used to normalize similarity scores. -/
def max_possible_distance : ℚ := 2

/-- The per-distance normalization `max(0.0, 1 - (s / max_possible_distance))`
applied to every returned score (src/nodes.py lines 72 and 108). -/
def normalized_scores (scores : List ℚ) : List ℚ :=
  scores.map (fun s => max 0 (1 - s / max_possible_distance))

/-- Round-half-to-even to an integer, the rounding mode of Python `round`. -/
def roundHalfEven (q : ℚ) : ℤ :=
  if q - ⌊q⌋ < 1/2 then ⌊q⌋
  else if 1/2 < q - ⌊q⌋ then ⌊q⌋ + 1
  else if ⌊q⌋ % 2 = 0 then ⌊q⌋ else ⌊q⌋ + 1

/-- Python `round(q, 3)`. -/
def pyRound3 (q : ℚ) : ℚ := (roundHalfEven (q * 1000) : ℚ) / 1000

/-- The confidence computation shared by both retrieval nodes:
`round(sum(normalized_scores) / len(normalized_scores), 3)`; dividing by a
zero length raises ZeroDivisionError, modelled as `none`. -/
def confidence_of (scores : List ℚ) : Option ℚ :=
  if (normalized_scores scores).length = 0 then none
  else some (pyRound3 ((normalized_scores scores).sum / ((normalized_scores scores).length : ℚ)))

/-- `UniversityGraph.regulations_rag_retrieval_node` (src/nodes.py lines
66-79): search the regulations store with k=3, store the documents and the
rounded average normalized confidence. -/
def regulations_rag_retrieval_node (a : Agent) (state : GraphState) : Except String GraphState :=
  let docs_with_scores := a.searchRegulations state.query 3
  let retrieved_docs := docs_with_scores.map Prod.fst
  let scores := docs_with_scores.map Prod.snd
  match confidence_of scores with
  | none => .error "ZeroDivisionError"
  | some confidence =>
    .ok { state with
      retrieved := some retrieved_docs,
      intermediate_response := some "Documents retrieved based on FAISS search.",
      metadata := some [("confidence", MVal.num confidence)] }

/-- `UniversityGraph.calendar_rag_retrieval_node` (src/nodes.py lines
102-115): identical to the regulations node but with k=20 on the calendar
store. -/
def calendar_rag_retrieval_node (a : Agent) (state : GraphState) : Except String GraphState :=
  let docs_with_scores := a.searchCalendar state.query 20
  let retrieved_docs := docs_with_scores.map Prod.fst
  let scores := docs_with_scores.map Prod.snd
  match confidence_of scores with
  | none => .error "ZeroDivisionError"
  | some confidence =>
    .ok { state with
      retrieved := some retrieved_docs,
      intermediate_response := some "Documents retrieved based on FAISS search.",
      metadata := some [("confidence", MVal.num confidence)] }

/-- Python `state.selected_tool or fallback`: None and the empty string are
both falsy. -/
def orElseStr (s : Option String) (fallback : String) : String :=
  match s with
  | none => fallback
  | some t => if t = "" then fallback else t

/-- `UniversityGraph.rag_answer_generation_node` (src/nodes.py lines 81-100):
join the retrieved chunks into the context, invoke the oracle with a guided
query naming the selected tool, and on an oracle exception produce a
diagnostic output instead of propagating. Iterating a `None` retrieved
field raises TypeError. -/
def rag_answer_generation_node (a : Agent) (state : GraphState) : Except String GraphState :=
  match state.retrieved with
  | none => .error "TypeError"
  | some docs =>
    let context := String.intercalate "\n\n" (docs.map Document.page_content)
    let tool := orElseStr state.selected_tool "a relevant tool"
    let q39 := String.singleton (Char.ofNat 39)
    let guided_query :=
      "Use the tool " ++ q39 ++ tool ++ q39 ++ " to answer this question. " ++
      "Now, answer the user query:\n" ++ state.query
    match a.invoke guided_query with
    | .ok output => .ok { state with output := some output, context := some context }
    | .error e =>
      .ok { state with
        output := some ("Agent failed while trying to use " ++ tool ++ ": " ++ e),
        context := some context }

/-- `UniversityGraph.rag_final` (src/nodes.py lines 117-120): the confidence
gate. `state.metadata.get` on a `None` metadata raises AttributeError; a
non-numeric confidence value makes the comparison raise TypeError; a
missing key defaults to 1.0. -/
def rag_final (state : GraphState) : Except String GraphState :=
  match state.metadata with
  | none => .error "AttributeError"
  | some metadata =>
    match (metadata.lookup "confidence").getD (MVal.num 1) with
    | .str _ => .error "TypeError"
    | .num confidence =>
      if confidence < 4/5 then .ok { state with hitl_ui_needed := some true }
      else .ok state

/-- `UniversityGraph.pandas_code_review` (src/nodes.py lines 122-138): run
the pandas agent (an exception propagates, there is no handler), take the
last intermediate step's code (`actions[-1]` raises IndexError on an empty
list), and halt with the code as output, the narrative answer as context
and the code-review flag set. -/
def pandas_code_review (a : Agent) (state : GraphState) : Except String GraphState :=
  match a.pandasInvoke state.query with
  | .error e => .error e
  | .ok result =>
    let actions := result.intermediate_steps
    match actions.getLast? with
    | none => .error "IndexError"
    | some last =>
      let code := last.1.tool_input
      let answer := result.output
      .ok { state with
        context := some answer,
        output := some code,
        code_review_needed := some true }

/-- `UniversityGraph.pandas_execute_user_code` (src/nodes.py lines 140-152):
wrap the state's query as code to execute and run the pandas agent; any
exception is caught and turned into a diagnostic output, never propagated. -/
def pandas_execute_user_code (a : Agent) (state : GraphState) : GraphState :=
  let code_as_text := state.query
  match a.pandasInvoke ("Execute the following code " ++ code_as_text) with
  | .ok result => { state with output := some result.output }
  | .error e =>
    { state with output := some ("Agent failed to execute code via Pandas agent: " ++ e) }

/-- `UniversityGraph.generate_code_response` (src/nodes.py lines 154-157):
the separately invokable code-execution entry point. -/
def generate_code_response (a : Agent) (code : String) : GraphState :=
  pandas_execute_user_code a { query := "execute this code on the dataframe: " ++ code }

/-- The compiled langgraph of `UniversityGraph.build_langgraph` (src/nodes.py
lines 162-206): entry at the routing node, then the conditional edge map on
`metadata` at key `next_node` dispatches to the retrieval-generate-gate
chains, the pandas code review node, the default node, or directly to END
for the date-time route. -/
def graph_invoke (a : Agent) (state0 : GraphState) : Except String GraphState := do
  let st1 ← decision_routing_node a state0
  let route ←
    (match st1.metadata with
     | none => Except.error "TypeError"
     | some m =>
       match m.lookup "next_node" with
       | some (MVal.str r) => Except.ok r
       | _ => Except.error "KeyError")
  if route = "retrieve" then
    let st2 ← regulations_rag_retrieval_node a st1
    let st3 ← rag_answer_generation_node a st2
    rag_final st3
  else if route = "pandas_node" then
    pandas_code_review a st1
  else if route = "calendar_node" then
    let st2 ← calendar_rag_retrieval_node a st1
    let st3 ← rag_answer_generation_node a st2
    rag_final st3
  else if route = "date_time_node" then
    .ok st1
  else if route = "default_node" then
    default_node a st1
  else .error "KeyError"

/-- `UniversityGraph.generate_response` (src/nodes.py lines 159-160): one
full graph run starting from a fresh state holding only the query; there is
no exception handler around `graph.invoke`. -/
def generate_response (a : Agent) (query : String) : Except String GraphState :=
  graph_invoke a { query := query }

/-- One chat-history entry kept by the streamlit app (src/app.py). -/
structure ChatEntry where
  query : String
  output : Option String
deriving Repr, DecidableEq

/-- Python truthiness of the optional approval flags. -/
def isTruthy : Option Bool → Bool
  | some b => b
  | none => false

/-- The chat-history update of `QueryApp._handle_query_submission`
(src/app.py): the finalized entry is prepended only when neither
`hitl_ui_needed` nor `code_review_needed` is truthy; a pending approval
writes nothing. -/
def submit_chat_update (history : List ChatEntry) (query : String)
    (response : GraphState) : List ChatEntry :=
  if !(isTruthy response.hitl_ui_needed) && !(isTruthy response.code_review_needed) then
    { query := query, output := response.output } :: history
  else history

/-! Concrete collaborator bundles used to evaluate the graph on specific
scenarios. -/

/-- A concrete collaborator bundle with well-behaved collaborators. -/
def baseAgent : Agent where
  plan := fun _ => .ok .finish
  invoke := fun _ => .ok "direct answer"
  pandasInvoke := fun _ =>
    .ok { output := "narrative answer",
          intermediate_steps := [({ tool_input := "df.head()" }, "obs")] }
  classify := fun _ => "SAFE"
  searchRegulations := fun _ _ => [({ page_content := "reg chunk" }, 1)]
  searchCalendar := fun _ _ => [({ page_content := "cal chunk" }, 1)]

/-- Collaborators whose vector stores return zero results. -/
def emptyIndexAgent : Agent :=
  { baseAgent with
    searchRegulations := fun _ _ => [],
    searchCalendar := fun _ _ => [] }

/-- Collaborators whose planner picks the date-and-time tool. -/
def clockAgent : Agent :=
  { baseAgent with plan := fun _ => .ok (.action "Current Date and Time tool") }

/-- Collaborators whose planning call raises an exception. -/
def throwingPlannerAgent : Agent :=
  { baseAgent with plan := fun _ => .error "PlanningError" }

/-- Collaborators whose pandas agent result carries no intermediate steps. -/
def noStepsAgent : Agent :=
  { baseAgent with
    pandasInvoke := fun _ =>
      .ok { output := "the average grade is 3", intermediate_steps := [] } }

/-- Collaborators whose classifier labels every query MODIFY while the
pandas agent reports execution. -/
def modifyClassifierAgent : Agent :=
  { baseAgent with
    classify := fun _ => "MODIFY",
    pandasInvoke := fun _ =>
      .ok { output := "EXECUTED drop",
            intermediate_steps := [({ tool_input := "df.drop(0)" }, "done")] } }

/-- Collaborators whose planner picks a tool name outside the recognized
set. -/
def unknownToolAgent : Agent :=
  { baseAgent with plan := fun _ => .ok (.action "Lookup tool") }

/-- A state as it reaches the confidence gate with a low stored confidence. -/
def lowConfState : GraphState :=
  { query := "q", metadata := some [("confidence", MVal.num (1/2))] }

/-- A state as it reaches the confidence gate with a high stored confidence. -/
def highConfState : GraphState :=
  { query := "q", output := some "ans",
    metadata := some [("confidence", MVal.num (9/10))] }

/-- A state whose metadata mapping holds no confidence key. -/
def noConfState : GraphState :=
  { query := "q", metadata := some [("next_node", MVal.str "retrieve")] }

/-! Helper lemmas about the rounding function and the confidence score. -/

lemma floor_le_roundHalfEven (q : ℚ) : ⌊q⌋ ≤ roundHalfEven q := by
  unfold roundHalfEven
  split_ifs <;> omega

lemma roundHalfEven_le_floor_add_one (q : ℚ) : roundHalfEven q ≤ ⌊q⌋ + 1 := by
  unfold roundHalfEven
  split_ifs <;> omega

lemma roundHalfEven_le_ceil (q : ℚ) : roundHalfEven q ≤ ⌈q⌉ := by
  have h0 := Int.floor_le_ceil q
  have hq := Int.floor_le q
  unfold roundHalfEven
  split_ifs with h1 h2 h3
  · exact h0
  · have : ⌊q⌋ < ⌈q⌉ := Int.lt_ceil.mpr (by linarith)
    omega
  · exact h0
  · have : ⌊q⌋ < ⌈q⌉ := Int.lt_ceil.mpr (by linarith)
    omega

lemma roundHalfEven_mono {q r : ℚ} (h : q ≤ r) : roundHalfEven q ≤ roundHalfEven r := by
  have hf : ⌊q⌋ ≤ ⌊r⌋ := Int.floor_mono h
  rcases eq_or_lt_of_le hf with heq | hlt
  · have hq := Int.floor_le q
    have hr := Int.floor_le r
    unfold roundHalfEven
    rw [← heq]
    split_ifs <;> (try omega) <;> (exfalso; linarith)
  · calc roundHalfEven q ≤ ⌊q⌋ + 1 := roundHalfEven_le_floor_add_one q
      _ ≤ ⌊r⌋ := by omega
      _ ≤ roundHalfEven r := floor_le_roundHalfEven r

lemma pyRound3_mono {q r : ℚ} (h : q ≤ r) : pyRound3 q ≤ pyRound3 r := by
  unfold pyRound3
  have : roundHalfEven (q * 1000) ≤ roundHalfEven (r * 1000) :=
    roundHalfEven_mono (by linarith)
  have hcast : ((roundHalfEven (q * 1000) : ℚ)) ≤ (roundHalfEven (r * 1000) : ℚ) := by
    exact_mod_cast this
  linarith

lemma pyRound3_nonneg {q : ℚ} (h : 0 ≤ q) : 0 ≤ pyRound3 q := by
  unfold pyRound3
  have h1 : (0 : ℤ) ≤ ⌊q * 1000⌋ := Int.floor_nonneg.mpr (by linarith)
  have h2 : (0 : ℤ) ≤ roundHalfEven (q * 1000) := le_trans h1 (floor_le_roundHalfEven _)
  have h3 : (0 : ℚ) ≤ (roundHalfEven (q * 1000) : ℚ) := by exact_mod_cast h2
  positivity

lemma pyRound3_le_one {q : ℚ} (h : q ≤ 1) : pyRound3 q ≤ 1 := by
  unfold pyRound3
  have h1 : roundHalfEven (q * 1000) ≤ ⌈q * 1000⌉ := roundHalfEven_le_ceil _
  have h2 : ⌈q * 1000⌉ ≤ ⌈(1000 : ℚ)⌉ := Int.ceil_mono (by linarith)
  have h3 : ⌈(1000 : ℚ)⌉ = 1000 := by norm_num
  have h4 : roundHalfEven (q * 1000) ≤ 1000 := by omega
  have h5 : ((roundHalfEven (q * 1000) : ℚ)) ≤ 1000 := by exact_mod_cast h4
  linarith

lemma norm_term_nonneg (d : ℚ) : 0 ≤ max 0 (1 - d / max_possible_distance) :=
  le_max_left 0 _

lemma norm_term_le_one {d : ℚ} (hd : 0 ≤ d) :
    max 0 (1 - d / max_possible_distance) ≤ 1 := by
  unfold max_possible_distance
  apply max_le (by norm_num)
  have : 0 ≤ d / 2 := by positivity
  linarith

lemma norm_term_anti {d e : ℚ} (h : d ≤ e) :
    max 0 (1 - e / max_possible_distance) ≤ max 0 (1 - d / max_possible_distance) := by
  unfold max_possible_distance
  apply max_le_max le_rfl
  linarith

lemma confidence_of_eq_some {scores : List ℚ} (h : scores ≠ []) :
    confidence_of scores =
      some (pyRound3 ((normalized_scores scores).sum / (scores.length : ℚ))) := by
  have hlen : (normalized_scores scores).length = scores.length := by
    simp [normalized_scores]
  have hpos : scores.length ≠ 0 := by
    intro h0
    exact h (List.length_eq_zero.mp h0)
  simp [confidence_of, hlen, hpos]

lemma confidence_of_mem_unit {scores : List ℚ} (hne : scores ≠ [])
    (hnn : ∀ d ∈ scores, 0 ≤ d) :
    ∃ c, confidence_of scores = some c ∧ 0 ≤ c ∧ c ≤ 1 := by
  refine ⟨_, confidence_of_eq_some hne, ?_, ?_⟩
  · apply pyRound3_nonneg
    apply div_nonneg
    · apply List.sum_nonneg
      intro x hx
      simp only [normalized_scores, List.mem_map] at hx
      obtain ⟨d, _, rfl⟩ := hx
      exact norm_term_nonneg d
    · positivity
  · apply pyRound3_le_one
    have hlenpos : (0 : ℚ) < (scores.length : ℚ) := by
      have := List.length_pos.mpr hne
      exact_mod_cast this
    rw [div_le_one hlenpos]
    have hbound : (normalized_scores scores).sum ≤ (normalized_scores scores).length • (1 : ℚ) := by
      apply List.sum_le_card_nsmul
      intro x hx
      simp only [normalized_scores, List.mem_map] at hx
      obtain ⟨d, hd, rfl⟩ := hx
      exact norm_term_le_one (hnn d hd)
    have hlen : (normalized_scores scores).length = scores.length := by
      simp [normalized_scores]
    rw [hlen] at hbound
    simpa using hbound

lemma confidence_of_anti (l1 l2 : List ℚ) {d e : ℚ} (h : d ≤ e) :
    ∃ c c2, confidence_of (l1 ++ d :: l2) = some c ∧
      confidence_of (l1 ++ e :: l2) = some c2 ∧ c2 ≤ c := by
  have hne1 : l1 ++ d :: l2 ≠ [] := by simp
  have hne2 : l1 ++ e :: l2 ≠ [] := by simp
  refine ⟨_, _, confidence_of_eq_some hne1, confidence_of_eq_some hne2, ?_⟩
  apply pyRound3_mono
  have hlen : ((l1 ++ e :: l2).length : ℚ) = ((l1 ++ d :: l2).length : ℚ) := by
    simp
  rw [hlen]
  have hlenpos : (0 : ℚ) < ((l1 ++ d :: l2).length : ℚ) := by
    have : 0 < (l1 ++ d :: l2).length := List.length_pos.mpr hne1
    exact_mod_cast this
  rw [div_le_div_iff_of_pos_right hlenpos]
  simp only [normalized_scores, List.map_append, List.map_cons, List.sum_append, List.sum_cons]
  have := norm_term_anti h
  linarith

/-! Claim theorems. -/

/-- Claim C1, counterexample: the claim that the pandas executor is only
ever invoked through the guarded `safe_query_execution` path, and that a
MODIFY-classified query is never executed, is false: with a classifier that
labels the query MODIFY, the guarded path refuses it, yet the code-execution
entry point `pandas_execute_user_code` runs the pandas agent on it anyway
and returns the execution result. -/
theorem modify_query_executed_via_code_entry :
    modifyClassifierAgent.classify "df.drop(0)" = "MODIFY" ∧
    safe_query_execution modifyClassifierAgent "df.drop(0)" = .ok modificationBlockedMsg ∧
    (pandas_execute_user_code modifyClassifierAgent { query := "df.drop(0)" }).output
      = some "EXECUTED drop" :=
  ⟨rfl, rfl, rfl⟩

/-- Claim C1, amended: the SAFE/MODIFY classifier guards only the
conversational agent's Pandas tool (`safe_query_execution`), where a
classification without SAFE yields the fixed refusal; the routing graph's
code-review node and the code-execution entry point invoke the pandas agent
directly and are entirely independent of the classifier. -/
theorem classifier_guards_only_safe_query_execution (a : Agent)
    (f : String → String) (st : GraphState) (q : String)
    (hmod : containsSAFE (a.classify q) = false) :
    pandas_execute_user_code { a with classify := f } st = pandas_execute_user_code a st ∧
    pandas_code_review { a with classify := f } st = pandas_code_review a st ∧
    safe_query_execution a q = .ok modificationBlockedMsg := by
  refine ⟨rfl, rfl, ?_⟩
  simp [safe_query_execution, hmod]

/-- Claim C1, witness for the amended theorem at a concrete MODIFY
classifier. -/
theorem classifier_guards_only_safe_query_execution_witness :
    pandas_execute_user_code { modifyClassifierAgent with classify := fun _ => "SAFE" }
        { query := "df.drop(0)" }
      = pandas_execute_user_code modifyClassifierAgent { query := "df.drop(0)" } ∧
    pandas_code_review { modifyClassifierAgent with classify := fun _ => "SAFE" }
        { query := "df.drop(0)" }
      = pandas_code_review modifyClassifierAgent { query := "df.drop(0)" } ∧
    safe_query_execution modifyClassifierAgent "df.drop(0)" = .ok modificationBlockedMsg :=
  classifier_guards_only_safe_query_execution modifyClassifierAgent (fun _ => "SAFE")
    { query := "df.drop(0)" } "df.drop(0)" rfl

/-- Claim C2: the claim that zero retrieval results yield confidence 0.0
rather than a fault is contradicted by the code: both retrieval nodes
divide the summed normalized scores by the result count, raising
ZeroDivisionError on an empty result list. -/
theorem empty_retrieval_raises_zero_division :
    regulations_rag_retrieval_node emptyIndexAgent { query := "q" } =
      .error "ZeroDivisionError" ∧
    calendar_rag_retrieval_node emptyIndexAgent { query := "q" } =
      .error "ZeroDivisionError" :=
  ⟨rfl, rfl⟩

/-- Claim C3: at the confidence gate, a stored confidence strictly below
0.8 sets the approval flag and the orchestrator then writes nothing to the
chat history, while a confidence at or above 0.8 leaves the state and its
unset approval flag unchanged and the orchestrator appends exactly one new
entry. -/
theorem confidence_gate_halts_below_threshold
    (st1 st2 : GraphState) (m1 m2 : Metadata) (c1 c2 : ℚ) (hist : List ChatEntry)
    (hm1 : st1.metadata = some m1)
    (hc1 : m1.lookup "confidence" = some (MVal.num c1))
    (hlow : c1 < 4/5)
    (hm2 : st2.metadata = some m2)
    (hc2 : m2.lookup "confidence" = some (MVal.num c2))
    (hhigh : 4/5 ≤ c2)
    (hflag2 : st2.hitl_ui_needed = none)
    (hcode2 : st2.code_review_needed = none) :
    (rag_final st1 = .ok { st1 with hitl_ui_needed := some true } ∧
      submit_chat_update hist st1.query { st1 with hitl_ui_needed := some true } = hist) ∧
    (rag_final st2 = .ok st2 ∧
      st2.hitl_ui_needed = none ∧
      submit_chat_update hist st2.query st2 =
        { query := st2.query, output := st2.output } :: hist) := by
  constructor
  · refine ⟨by simp [rag_final, hm1, hc1, hlow], ?_⟩
    simp [submit_chat_update, isTruthy]
  · refine ⟨by simp [rag_final, hm2, hc2, not_lt.mpr hhigh], hflag2, ?_⟩
    simp [submit_chat_update, isTruthy, hflag2, hcode2]

/-- Claim C3, witness at confidence 0.5 (halts, no write) and 0.9
(finalizes, one write). -/
theorem confidence_gate_halts_below_threshold_witness :
    (rag_final lowConfState = .ok { lowConfState with hitl_ui_needed := some true } ∧
      submit_chat_update [] lowConfState.query
        { lowConfState with hitl_ui_needed := some true } = []) ∧
    (rag_final highConfState = .ok highConfState ∧
      highConfState.hitl_ui_needed = none ∧
      submit_chat_update [] highConfState.query highConfState =
        { query := highConfState.query, output := highConfState.output } :: []) :=
  confidence_gate_halts_below_threshold lowConfState highConfState
    [("confidence", MVal.num (1/2))] [("confidence", MVal.num (9/10))]
    (1/2) (9/10) [] rfl rfl (by norm_num) rfl rfl (by norm_num) rfl rfl

/-- Claim C4, counterexample: the claim that the code-review node halts
with the flag set for every possible agent result is false: an agent
result with no intermediate steps makes `actions[-1]` raise IndexError, so
no halted state is produced at all. -/
theorem code_review_faults_on_empty_steps :
    pandas_code_review noStepsAgent { query := "average grade" } = .error "IndexError" :=
  rfl

/-- Claim C4, amended: for every agent result that carries at least one
intermediate step, the code-review node halts with output equal to the
last step's generated code, context equal to the narrative answer and the
code-review flag set, touching no other field (in particular no confidence
is computed); a result with zero steps raises IndexError instead. -/
theorem code_review_halts_with_code_and_flag (a : Agent) (st : GraphState)
    (res : PandasResult) (last : PandasAction × String)
    (hres : a.pandasInvoke st.query = .ok res)
    (hlast : res.intermediate_steps.getLast? = some last) :
    pandas_code_review a st =
      .ok { st with context := some res.output,
                    output := some last.1.tool_input,
                    code_review_needed := some true } := by
  simp [pandas_code_review, hres, hlast]

/-- Claim C4, witness at a concrete one-step agent result. -/
theorem code_review_halts_with_code_and_flag_witness :
    pandas_code_review baseAgent { query := "q" } =
      .ok { ({ query := "q" } : GraphState) with
            context := some "narrative answer",
            output := some "df.head()",
            code_review_needed := some true } :=
  code_review_halts_with_code_and_flag baseAgent { query := "q" }
    { output := "narrative answer",
      intermediate_steps := [({ tool_input := "df.head()" }, "obs")] }
    ({ tool_input := "df.head()" }, "obs") rfl rfl

/-- Claim C5, counterexample: the claim that no planning fault propagates
to the caller of `generate_response` is false: a planning call that raises
is not caught anywhere, so the graph run itself raises. -/
theorem planning_exception_propagates :
    generate_response throwingPlannerAgent "any query" = .error "PlanningError" :=
  rfl

/-- Claim C5, amended: a planning result with an unrecognized tool id does
fail open to the direct-answer route, but a planning call that throws is
not treated as NoToolSelected: the exception propagates out of
`generate_response` to its caller. -/
theorem unrecognized_tool_fails_open_but_throw_propagates
    (a b : Agent) (q e t : String)
    (ha : a.plan q = .error e)
    (hb : b.plan q = .ok (.action t))
    (h1 : t ≠ "Calendar events retriever")
    (h2 : t ≠ "Current Date and Time tool")
    (h3 : t ≠ "Pandas student Data Frame Tool")
    (h4 : t ≠ "University regulations retriever") :
    generate_response a q = .error e ∧
    decide_route b q = .ok (t, "default_node") := by
  constructor
  · simp only [generate_response, graph_invoke, decision_routing_node, decide_route, ha]
    rfl
  · simp [decide_route, hb, h1, h2, h3, h4]

/-- Claim C5, witness at a throwing planner and an unrecognized tool id. -/
theorem unrecognized_tool_fails_open_but_throw_propagates_witness :
    generate_response throwingPlannerAgent "any query" = .error "PlanningError" ∧
    decide_route unknownToolAgent "any query" = .ok ("Lookup tool", "default_node") :=
  unrecognized_tool_fails_open_but_throw_propagates throwingPlannerAgent unknownToolAgent
    "any query" "PlanningError" "Lookup tool" rfl rfl
    (by decide) (by decide) (by decide) (by decide)

/-- Claim C6: with the planner selecting the date-and-time tool, the graph
run does bypass the retrieval and generation nodes, but it halts with no
output at all: the date-time edge maps straight to END and no node ever
invokes `get_current_datetime`, so no timestamp-shaped string is produced,
contradicting the claimed finalized timestamp answer. -/
theorem clock_route_halts_without_output :
    ∃ st, generate_response clockAgent "What time is it?" = .ok st ∧
      st.output = none ∧ st.retrieved = none ∧ st.context = none ∧
      st.selected_tool = some "Current Date and Time tool" :=
  ⟨_, rfl, rfl, rfl, rfl, rfl⟩

/-- Claim C7: for non-empty search results, the regulations node (k=3) and
the calendar node (k=20) store the retrieved chunks and a confidence equal
to the average of `max 0 (1 - d/2)` over all returned distances, rounded to
3 decimal places, leaving the output unchanged (no answer synthesized). -/
theorem retrieval_nodes_store_confidence_formula (a : Agent) (st : GraphState)
    (hreg : a.searchRegulations st.query 3 ≠ [])
    (hcal : a.searchCalendar st.query 20 ≠ []) :
    regulations_rag_retrieval_node a st = .ok { st with
      retrieved := some ((a.searchRegulations st.query 3).map Prod.fst),
      intermediate_response := some "Documents retrieved based on FAISS search.",
      metadata := some [("confidence", MVal.num (pyRound3
        ((((a.searchRegulations st.query 3).map Prod.snd).map
            (fun d => max 0 (1 - d / 2))).sum
          / ((a.searchRegulations st.query 3).length : ℚ))))] } ∧
    calendar_rag_retrieval_node a st = .ok { st with
      retrieved := some ((a.searchCalendar st.query 20).map Prod.fst),
      intermediate_response := some "Documents retrieved based on FAISS search.",
      metadata := some [("confidence", MVal.num (pyRound3
        ((((a.searchCalendar st.query 20).map Prod.snd).map
            (fun d => max 0 (1 - d / 2))).sum
          / ((a.searchCalendar st.query 20).length : ℚ))))] } := by
  have hne1 : (a.searchRegulations st.query 3).map Prod.snd ≠ [] := by
    simpa using hreg
  have hne2 : (a.searchCalendar st.query 20).map Prod.snd ≠ [] := by
    simpa using hcal
  constructor
  · rw [regulations_rag_retrieval_node]
    rw [confidence_of_eq_some hne1]
    simp [normalized_scores, max_possible_distance]
  · rw [calendar_rag_retrieval_node]
    rw [confidence_of_eq_some hne2]
    simp [normalized_scores, max_possible_distance]

/-- Claim C7, witness at concrete single-result stores. -/
theorem retrieval_nodes_store_confidence_formula_witness :
    regulations_rag_retrieval_node baseAgent { query := "q" } =
      .ok { ({ query := "q" } : GraphState) with
        retrieved := some ((baseAgent.searchRegulations "q" 3).map Prod.fst),
        intermediate_response := some "Documents retrieved based on FAISS search.",
        metadata := some [("confidence", MVal.num (pyRound3
          ((((baseAgent.searchRegulations "q" 3).map Prod.snd).map
              (fun d => max 0 (1 - d / 2))).sum
            / ((baseAgent.searchRegulations "q" 3).length : ℚ))))] } ∧
    calendar_rag_retrieval_node baseAgent { query := "q" } =
      .ok { ({ query := "q" } : GraphState) with
        retrieved := some ((baseAgent.searchCalendar "q" 20).map Prod.fst),
        intermediate_response := some "Documents retrieved based on FAISS search.",
        metadata := some [("confidence", MVal.num (pyRound3
          ((((baseAgent.searchCalendar "q" 20).map Prod.snd).map
              (fun d => max 0 (1 - d / 2))).sum
            / ((baseAgent.searchCalendar "q" 20).length : ℚ))))] } :=
  retrieval_nodes_store_confidence_formula baseAgent { query := "q" }
    (by simp [baseAgent]) (by simp [baseAgent])

/-- Claim C8, counterexample: confidence is not strictly decreasing in each
distance: raising the only distance from 3 to 4 leaves the computed
confidence unchanged at 0 (the normalization clamps distances beyond 2). -/
theorem confidence_not_strictly_decreasing :
    (3:ℚ) < 4 ∧ confidence_of [(3:ℚ)] = some 0 ∧ confidence_of [(4:ℚ)] = some 0 := by
  refine ⟨by norm_num, ?_, ?_⟩ <;>
    norm_num [confidence_of, normalized_scores, pyRound3, roundHalfEven,
      max_possible_distance]

/-- Claim C8, amended: on every non-empty list of non-negative distances
the computed confidence lies in [0, 1], and confidence is weakly decreasing
in each individual distance: raising one distance while holding the others
fixed never increases it (strict decrease fails, e.g. beyond the clamping
distance 2 or below the rounding resolution). -/
theorem confidence_bounded_and_weakly_decreasing
    (ds l1 l2 : List ℚ) (d e : ℚ)
    (hne : ds ≠ []) (hnn : ∀ x ∈ ds, 0 ≤ x) (hde : d ≤ e) :
    (∃ c, confidence_of ds = some c ∧ 0 ≤ c ∧ c ≤ 1) ∧
    (∃ c c2, confidence_of (l1 ++ d :: l2) = some c ∧
      confidence_of (l1 ++ e :: l2) = some c2 ∧ c2 ≤ c) :=
  ⟨confidence_of_mem_unit hne hnn, confidence_of_anti l1 l2 hde⟩

/-- Claim C8, witness at distances [1] and the single-distance increase
from 1 to 3. -/
theorem confidence_bounded_and_weakly_decreasing_witness :
    (∃ c, confidence_of [(1:ℚ)] = some c ∧ 0 ≤ c ∧ c ≤ 1) ∧
    (∃ c c2, confidence_of [(1:ℚ)] = some c ∧
      confidence_of [(3:ℚ)] = some c2 ∧ c2 ≤ c) :=
  confidence_bounded_and_weakly_decreasing [1] [] [] 1 3
    (by simp) (by norm_num) (by norm_num)

/-- Claim C9: dispatch is total: every successfully planned result routes
to exactly one of the five defined edges; an unrecognized tool id and an
AgentFinish (no tool selected) both route to the direct-answer edge rather
than raising an unhandled case. -/
theorem dispatch_total_five_edges (a b c : Agent) (q : String) (p : Plan) (t : String)
    (hp : a.plan q = .ok p)
    (hb : b.plan q = .ok (.action t))
    (h1 : t ≠ "Calendar events retriever")
    (h2 : t ≠ "Current Date and Time tool")
    (h3 : t ≠ "Pandas student Data Frame Tool")
    (h4 : t ≠ "University regulations retriever")
    (hcfin : c.plan q = .ok .finish) :
    (∃ tool route, decide_route a q = .ok (tool, route) ∧
      (route = "retrieve" ∨ route = "pandas_node" ∨ route = "calendar_node" ∨
       route = "date_time_node" ∨ route = "default_node")) ∧
    decide_route b q = .ok (t, "default_node") ∧
    decide_route c q = .ok ("None", "default_node") := by
  refine ⟨?_, by simp [decide_route, hb, h1, h2, h3, h4], by simp [decide_route, hcfin]⟩
  cases p with
  | finish => exact ⟨"None", "default_node", by simp [decide_route, hp], by tauto⟩
  | action u =>
    by_cases g1 : u = "Calendar events retriever"
    · exact ⟨u, "calendar_node", by simp [decide_route, hp, g1], by tauto⟩
    · by_cases g2 : u = "Current Date and Time tool"
      · exact ⟨u, "date_time_node", by simp [decide_route, hp, g1, g2], by tauto⟩
      · by_cases g3 : u = "Pandas student Data Frame Tool"
        · exact ⟨u, "pandas_node", by simp [decide_route, hp, g1, g2, g3], by tauto⟩
        · by_cases g4 : u = "University regulations retriever"
          · exact ⟨u, "retrieve", by simp [decide_route, hp, g1, g2, g3, g4], by tauto⟩
          · exact ⟨u, "default_node", by simp [decide_route, hp, g1, g2, g3, g4], by tauto⟩

/-- Claim C9, witness at a clock plan, an unrecognized tool plan and an
AgentFinish plan. -/
theorem dispatch_total_five_edges_witness :
    (∃ tool route, decide_route clockAgent "What time is it?" = .ok (tool, route) ∧
      (route = "retrieve" ∨ route = "pandas_node" ∨ route = "calendar_node" ∨
       route = "date_time_node" ∨ route = "default_node")) ∧
    decide_route unknownToolAgent "What time is it?" = .ok ("Lookup tool", "default_node") ∧
    decide_route baseAgent "What time is it?" = .ok ("None", "default_node") :=
  dispatch_total_five_edges clockAgent unknownToolAgent baseAgent "What time is it?"
    (.action "Current Date and Time tool") "Lookup tool" rfl rfl
    (by decide) (by decide) (by decide) (by decide) rfl

/-- Claim C10: when the metadata mapping carries no confidence key, the
confidence gate defaults the value to 1.0, which is not below 0.8, so the
gate returns the state unchanged: no field is modified and the approval
flag is never set, so such a run cannot halt for text approval. -/
theorem missing_confidence_defaults_to_finalize (st : GraphState) (m : Metadata)
    (hm : st.metadata = some m)
    (hc : m.lookup "confidence" = none) :
    rag_final st = .ok st := by
  simp [rag_final, hm, hc]
  norm_num

/-- Claim C10, witness at a metadata mapping holding only the routing key. -/
theorem missing_confidence_defaults_to_finalize_witness :
    rag_final noConfState = .ok noConfState :=
  missing_confidence_defaults_to_finalize noConfState
    [("next_node", MVal.str "retrieve")] rfl rfl

end FAQTool
